import Mathlib

/-!
Shallow embedding of the Marogo Civils content-management core
(`src/app.py`): the image-optimizer adapter `optimize_with_tinypng`
and the three admin content dispatchers `manage_content` (create),
`edit_content` (update) and `delete_content`, together with the data
model (entity records, upload directory, flash messages).

Conventions of the embedding:
* machine-level side effects (the upload directory, flash messages,
  the database tables) are explicit state threaded through each
  handler;
* Python exceptions that escape a handler are `Except.error`;
* the remote TinyPNG service, and the success or failure of raw
  file-system writes, are an oracle (`OptEnv`) supplied per upload;
* strings are treated at the ASCII level (all fixed strings in the
  source, and every input a claim exercises, are ASCII).
-/

namespace Marogo

/-- A Python value-or-raised-exception result (`Except.error` is an
uncaught exception propagating out of the handler). -/
abbrev Py (α : Type) := Except String α

/-- Explicit bind for `Py`, kept as a plain `match` so proofs can
reduce it by rewriting the scrutinee. -/
def pbind {α β : Type} (x : Py α) (f : α → Py β) : Py β :=
  match x with
  | .error e => .error e
  | .ok a => f a

theorem pbind_ok {α β : Type} (a : α) (f : α → Py β) : pbind (.ok a) f = f a := rfl

theorem pbind_error {α β : Type} (e : String) (f : α → Py β) :
    pbind (Except.error e : Py α) f = .error e := rfl

/-- Raw bytes of a file. -/
abbrev Bytes := List Nat

/-- Werkzeug `FileStorage`: an uploaded file with its client-supplied
filename and content. -/
structure FileStorage where
  filename : String
  content : Bytes
deriving DecidableEq, Repr

/-- The flat upload directory: filenames mapped to byte content
(association list; a write overwrites an existing entry in place). -/
abbrev Dir := List (String × Bytes)

/-- Binary write (`open(path, "wb")`): overwrite the entry if the name
exists, otherwise append a fresh entry. -/
def writeFile (dir : Dir) (name : String) (content : Bytes) : Dir :=
  if dir.any (fun e => e.1 = name) then
    dir.map (fun e => if e.1 = name then (name, content) else e)
  else
    dir ++ [(name, content)]

/-- Tolerant removal: `os.remove` wrapped in `try/except OSError: log` as
the source always does — remove the name if present, silently keep
going if not. -/
def removeFileTolerant (dir : Dir) (name : String) : Dir :=
  dir.filter (fun e => e.1 ≠ name)

/-- Existence check (`os.path.exists`) within the upload directory. -/
def dirHas : Dir → String → Bool
  | [], _ => false
  | e :: tl, name => e.1 = name || dirHas tl name

/-- Content stored under a name, if any. -/
def lookupFile : Dir → String → Option Bytes
  | [], _ => none
  | e :: tl, name => if e.1 = name then some e.2 else lookupFile tl name

/-- A flash message: text and category (`success` / `danger` /
`warning` / `info`). -/
abbrev Flash := String × String

/-! ### Multidict helpers (`request.form`, `request.files`) -/

/-- Lookup `d.get(k)`: first value bound to the key, if any. -/
def mdGet {α : Type} (l : List (String × α)) (k : String) : Option α :=
  (l.find? (fun e => e.1 = k)).map (fun e => e.2)

/-- Lookup with default, `d.get(k, default)`. -/
def mdGetD {α : Type} (l : List (String × α)) (k : String) (d : α) : α :=
  (mdGet l k).getD d

/-- Indexing `d[k]`: raises `KeyError` when the key is absent. -/
def mdIdx {α : Type} (l : List (String × α)) (k : String) : Py α :=
  match mdGet l k with
  | some v => .ok v
  | none => .error ("KeyError: " ++ k)

/-- Multi-value lookup `d.getlist(k)`: every value bound to the key,
in order. -/
def mdGetlist {α : Type} (l : List (String × α)) (k : String) : List α :=
  (l.filter (fun e => e.1 = k)).map (fun e => e.2)

/-- Containment test `k in d`. -/
def mdContains {α : Type} (l : List (String × α)) (k : String) : Bool :=
  l.any (fun e => e.1 = k)

/-- Decimal digit value of a character, if it is one. -/
def digitVal? (c : Char) : Option Nat :=
  if '0' ≤ c ∧ c ≤ '9' then some (c.toNat - '0'.toNat) else none

/-- Accumulate a decimal number over characters; `none` on a non-digit
or on no digit at all. -/
def digitsVal : List Char → Option Nat → Option Nat
  | [], acc => acc
  | c :: cs, acc =>
    match digitVal? c, acc with
    | some d, some a => digitsVal cs (some (a * 10 + d))
    | some d, none => digitsVal cs (some d)
    | none, _ => none

/-! ### ASCII case mapping and Python string helpers

Python `str.lower` / `str.title` restricted to ASCII, which covers
every fixed string in the source and every input the claims exercise.
The lowercase map is the explicit A→a … Z→z table. -/

def lowerPairs : List (Char × Char) :=
  [('A', 'a'), ('B', 'b'), ('C', 'c'), ('D', 'd'), ('E', 'e'), ('F', 'f'),
   ('G', 'g'), ('H', 'h'), ('I', 'i'), ('J', 'j'), ('K', 'k'), ('L', 'l'),
   ('M', 'm'), ('N', 'n'), ('O', 'o'), ('P', 'p'), ('Q', 'q'), ('R', 'r'),
   ('S', 's'), ('T', 't'), ('U', 'u'), ('V', 'v'), ('W', 'w'), ('X', 'x'),
   ('Y', 'y'), ('Z', 'z')]

/-- ASCII lowercasing of one character. -/
def asciiLower (c : Char) : Char :=
  ((lowerPairs.find? (fun p => p.1 = c)).map (fun p => p.2)).getD c

/-- ASCII uppercasing of one character. -/
def asciiUpper (c : Char) : Char :=
  ((lowerPairs.find? (fun p => p.2 = c)).map (fun p => p.1)).getD c

/-- Concatenation of the images of each character (used to model
Python `str.replace` with a one-character pattern). -/
def concatMap (f : Char → List Char) : List Char → List Char
  | [] => []
  | c :: cs => f c ++ concatMap f cs

/-- Python `s.replace(pat, rep)` for a one-character pattern `pat`:
substitute `rep` for every occurrence of `pat`. -/
def pyReplaceChar (pat : Char) (rep : List Char) (s : List Char) : List Char :=
  concatMap (fun c => if c = pat then rep else [c]) s

/-- Python `s.lower()` on ASCII text. -/
def pyLower (s : List Char) : List Char := s.map asciiLower

/-- Whitespace characters recognised by Python `str.split()` (ASCII). -/
def isPyWs (c : Char) : Bool :=
  c = ' ' ∨ c = '\t' ∨ c = '\n' ∨ c = '\r' ∨ c = '\x0b' ∨ c = '\x0c'

/-- Python `s.split()`: split on runs of whitespace, dropping empties. -/
def pySplitWsAux : List Char → List Char → List (List Char)
  | [], acc => if acc.isEmpty then [] else [acc.reverse]
  | c :: cs, acc =>
    if isPyWs c then
      if acc.isEmpty then pySplitWsAux cs []
      else acc.reverse :: pySplitWsAux cs []
    else
      pySplitWsAux cs (c :: acc)

def pySplitWs (s : List Char) : List (List Char) := pySplitWsAux s []

/-- Join `sep.join(parts)` for a one-character separator. -/
def joinWith (sep : Char) : List (List Char) → List Char
  | [] => []
  | [w] => w
  | w :: ws => w ++ sep :: joinWith sep ws

/-- Python `s.strip(chars)`: drop characters satisfying `p` from both
ends. -/
def pyStrip (p : Char → Bool) (s : List Char) : List Char :=
  ((s.dropWhile p).reverse.dropWhile p).reverse

/-- Python `int(s)`: strip whitespace, optional sign, decimal digits;
raises `ValueError` otherwise. -/
def pyInt (s : String) : Py Int :=
  let core :=
    match pyStrip isPyWs s.data with
    | '-' :: rest => (digitsVal rest none).map (fun n => -(n : Int))
    | '+' :: rest => (digitsVal rest none).map (fun n => (n : Int))
    | rest => (digitsVal rest none).map (fun n => (n : Int))
  match core with
  | some n => .ok n
  | none => .error ("ValueError: " ++ s)

/-- The store's coercion of a form-supplied primary key to an integer
(`ProjectImage.query.get(img_id)` with a string id): a plain decimal
parse, anything else finds no row. -/
def pyIdNat? (s : String) : Option Nat := digitsVal s.data none

/-- ASCII `str.title()` used in the flash labels: a letter directly
after a letter is lowercased, any other letter is uppercased. -/
def pyTitleAux : List Char → Bool → List Char
  | [], _ => []
  | c :: cs, prevAlpha =>
    let isAl := c.isAlpha
    (if isAl then (if prevAlpha then asciiLower c else asciiUpper c) else c)
      :: pyTitleAux cs isAl

/-- The singular label `content_type.replace("_", " ").title()[:-1]`
used in the dispatchers flash messages. -/
def successLabel (ct : String) : String :=
  String.mk ((pyTitleAux (pyReplaceChar '_' [' '] ct.data) false).dropLast)

/-! ### `werkzeug.utils.secure_filename` (ASCII fragment)

The NFKD-normalisation / ASCII-projection step is the identity on the
ASCII inputs considered here; on POSIX the only path separator is
`/`. -/

def filenameKeepChar (c : Char) : Bool :=
  (('A' ≤ c ∧ c ≤ 'Z') ∨ ('a' ≤ c ∧ c ≤ 'z') ∨ ('0' ≤ c ∧ c ≤ '9')
    ∨ c = '_' ∨ c = '.' ∨ c = '-')

def secure_filename (filename : String) : String :=
  let s := filename.data.map (fun c => if c = '/' then ' ' else c)
  let joined := joinWith '_' (pySplitWs s)
  let stripped := joined.filter filenameKeepChar
  String.mk (pyStrip (fun c => c = '.' ∨ c = '_') stripped)

/-- Base name `os.path.splitext(p)[0]` for a bare filename (no
separators): cut at the last dot provided some earlier character of
the name is not a dot. -/
def splitextBase (s : String) : String :=
  let cs := s.data
  match ((List.range cs.length).filter (fun i => cs.get? i = some '.')).max? with
  | none => s
  | some i =>
    if (cs.take i).any (fun c => c ≠ '.') then String.mk (cs.take i) else s

/-! ### Slug derivation (Service)

Source: `title.lower().replace(' ', '-').replace('&', 'and').replace('/', '_')`
(each `replace` has a one-character pattern, hence `pyReplaceChar`). -/

def slugChars (s : List Char) : List Char :=
  pyReplaceChar '/' ['_']
    (pyReplaceChar '&' ['a', 'n', 'd']
      (pyReplaceChar ' ' ['-'] (pyLower s)))

def slugify (title : String) : String := String.mk (slugChars title.data)

/-! ### Image Optimizer Adapter (`optimize_with_tinypng`) -/

/-- Python truthiness of the optional numeric bounds (`None` and `0`
are falsy). -/
def natTruthy (o : Option Nat) : Bool :=
  match o with
  | some n => n ≠ 0
  | none => false

/-- The resize strategy the source selects from `max_width` /
`max_height` (`fit` / `scale` on width / `scale` on height / none). -/
inductive ResizeStrategy where
  | fitBox (w h : Nat)
  | scaleWidth (w : Nat)
  | scaleHeight (h : Nat)
  | noResize
deriving DecidableEq, Repr

def resizeStrategy (maxW maxH : Option Nat) : ResizeStrategy :=
  if natTruthy maxW ∧ natTruthy maxH then .fitBox (maxW.getD 0) (maxH.getD 0)
  else if natTruthy maxW then .scaleWidth (maxW.getD 0)
  else if natTruthy maxH then .scaleHeight (maxH.getD 0)
  else .noResize

/-- Outcome of the remote TinyPNG call chain
(`from_buffer` / `resize` / `convert` / `to_file`). -/
inductive TinifyOutcome where
  | success
  | svcError (msg : String)  -- `tinify.Error` raised by the remote service
  | genError (msg : String)  -- any other exception inside the `try` block

/-- Oracle for one optimizer call: what the remote service does, the
bytes it would produce on success, and whether the raw fallback
`file_storage.save` succeeds. -/
structure OptEnv where
  outcome : TinifyOutcome
  transform : ResizeStrategy → Bytes → Bytes
  fallbackSaveOk : Bool

/--
The adapter `optimize_with_tinypng(file_storage, output_path, max_width=1920, max_height=None)`.

Returns the written filename (or `none`), the updated directory and
flash list; `Except.error` is an exception escaping to the caller.
On `tinify.Error` the handler flashes a warning, `seek(0)`s the
upload and saves the original bytes under the sanitized original
name (an exception raised by that save is not caught by the
`except Exception` clause of the same `try`, so it propagates). On
any other exception the handler flashes a danger message and returns
`None` with nothing written.
-/
def optimize_with_tinypng (env : OptEnv) (file_storage : Option FileStorage)
    (output_path : Dir) (flashes : List Flash)
    (max_width : Option Nat := some 1920) (max_height : Option Nat := none) :
    Py (Option String × Dir × List Flash) :=
  match file_storage with
  | none => .ok (none, output_path, flashes)
  | some fs =>
    if fs.filename = "" then .ok (none, output_path, flashes)
    else
      let filename_base := splitextBase (secure_filename fs.filename)
      let new_filename := filename_base ++ ".webp"
      match env.outcome with
      | .success =>
        let optimized := env.transform (resizeStrategy max_width max_height) fs.content
        .ok (some new_filename, writeFile output_path new_filename optimized, flashes)
      | .svcError msg =>
        let flashes2 := flashes ++
          [("Image optimization failed: " ++ msg ++ ". Attempting to save original file.",
            "warning")]
        let original_filename := secure_filename fs.filename
        -- file_storage.seek(0) resets the stream, so save writes the original bytes
        if env.fallbackSaveOk then
          .ok (some original_filename,
               writeFile output_path original_filename fs.content, flashes2)
        else .error "OSError during fallback save"
      | .genError msg =>
        .ok (none, output_path,
             flashes ++ [("An unexpected error occurred during image processing: " ++ msg,
                          "danger")])

/-! ### Database records (`db.Model` classes) -/

structure ProjectR where
  id : Nat
  title : String
  client : Option String
  location : Option String
  project_value : Option String
  completion_date : Option String
  details : String
  image_url : Option String
  category : String
  date_posted : Nat
deriving DecidableEq, Repr

structure ProjectImageR where
  id : Nat
  image_url : String
  project_id : Nat
deriving DecidableEq, Repr

structure ServiceR where
  id : Nat
  title : String
  slug : String
  image_url : Option String
  summary : String
  full_content : String
  order_num : Int
  header_image_url : Option String
  project_category_link : Option String
deriving DecidableEq, Repr

structure BlogPostR where
  id : Nat
  title : String
  content : String
  author : String
  date_posted : Nat
deriving DecidableEq, Repr

structure TestimonialR where
  id : Nat
  author : String
  position : String
  quote : String
deriving DecidableEq, Repr

structure StatisticR where
  id : Nat
  name : String
  value : Int
  icon : String
  order_num : Int
deriving DecidableEq, Repr

structure TeamMemberR where
  id : Nat
  name : String
  position : String
  bio : String
  image_url : String
  order_num : Int
deriving DecidableEq, Repr

structure ClientLogoR where
  id : Nat
  name : String
  image_url : String
  website_url : String
  order_num : Int
deriving DecidableEq, Repr

structure CertificationR where
  id : Nat
  name : String
  issuing_body : String
  image_url : Option String
  order_num : Int
deriving DecidableEq, Repr

structure SubmissionR where
  id : Nat
  name : String
  email : String
  subject : String
  message : String
  submitted_on : Nat
deriving DecidableEq, Repr

/-- The relational store: one list per table. -/
structure DB where
  projects : List ProjectR
  projectImages : List ProjectImageR
  services : List ServiceR
  blogPosts : List BlogPostR
  testimonials : List TestimonialR
  statistics : List StatisticR
  teamMembers : List TeamMemberR
  clientLogos : List ClientLogoR
  certifications : List CertificationR
  submissions : List SubmissionR
deriving DecidableEq, Repr

def emptyDB : DB :=
  ⟨[], [], [], [], [], [], [], [], [], []⟩

/-- Primary-key lookup, `Model.query.get(i)`. -/
def findId {α : Type} (idOf : α → Nat) (l : List α) (i : Nat) : Option α :=
  l.find? (fun r => idOf r = i)

/-- Store a mutated ORM object back into its table on commit. -/
def updId {α : Type} (idOf : α → Nat) (l : List α) (i : Nat) (r2 : α) : List α :=
  l.map (fun r => if idOf r = i then r2 else r)

/-- Row deletion (`db.session.delete`) by primary key. -/
def delId {α : Type} (idOf : α → Nat) (l : List α) (i : Nat) : List α :=
  l.filter (fun r => idOf r ≠ i)

/-- Auto-increment primary key for an insert. -/
def freshId {α : Type} (idOf : α → Nat) (l : List α) : Nat :=
  (l.foldl (fun m r => max m (idOf r)) 0) + 1

/-- Python truthiness of a nullable string column (`None` and `""` are
falsy). -/
def strTruthy (o : Option String) : Bool :=
  match o with
  | some s => s ≠ ""
  | none => false

/-! ### Requests, responses, web state -/

/-- The parts of a Flask request the dispatchers read. -/
structure Request where
  form : List (String × String)
  files : List (String × FileStorage)
  now : Nat  -- wall clock backing the `date_posted` defaults
deriving DecidableEq, Repr

/-- The response value a dispatcher ends with. -/
inductive Response where
  | redirectDashboard
  | redirectRequestUrl
  | redirectManage (content_type : String)
  | notFoundPage                 -- `get_or_404` aborting with a 404 page
  | invalidContentType404        -- `return "Invalid content type", 404`
deriving DecidableEq, Repr

/-- Mutable state visible across one request: the database, the upload
directory and the accumulated flash messages. -/
structure WebState where
  db : DB
  dir : Dir
  flashes : List Flash
deriving DecidableEq, Repr

def addFlash (st : WebState) (m c : String) : WebState :=
  { st with flashes := st.flashes ++ [(m, c)] }

/-- Response projection of a handler result. -/
def respOf (r : Py (Response × WebState)) : Option Response :=
  r.toOption.map (fun x => x.1)

/-- State projection of a handler result. -/
def stateOf (r : Py (Response × WebState)) : Option WebState :=
  r.toOption.map (fun x => x.2)

/-! ### Content Dispatcher — Create (`manage_content`, POST branch) -/

/-- The type registry of `manage_content`. -/
def manage_models : List String :=
  ["projects", "blog", "testimonials", "statistics", "team_members", "services",
   "client_logos", "certifications"]

/-- The shared tail of every successful create: `db.session.add`,
`commit`, success flash, redirect to the listing view. -/
def finishAdd (st : WebState) (content_type : String) : Response × WebState :=
  (.redirectManage content_type,
   addFlash st (successLabel content_type ++ " added successfully!") "success")

/-- Shared early exit of the required-image guards: flash the danger
message and redirect back to `request.url`. -/
def missingImageGuard (st : WebState) (msg : String) : Py (Response × WebState) :=
  .ok (.redirectRequestUrl, addFlash st msg "danger")

/--
The POST (create) branch of `manage_content`. `env` supplies the
optimizer oracle for each uploaded file. The handler mirrors the
source: the per-type `if/elif` chain, the
`'X' not in request.files or request.files['X'].filename == ''`
required-image guards, and the final `if 'new_item' in locals()`
(modelled by the branches that fall through to a bare redirect when
no entity was constructed).
-/
def manage_content_post (env : FileStorage → OptEnv) (content_type : String)
    (req : Request) (st : WebState) : Py (Response × WebState) :=
  if ¬ manage_models.contains content_type then
    .ok (.redirectDashboard, addFlash st "Invalid content type." "danger")
  else if content_type = "projects" then
    match mdGet req.files "project_image" with
    | none => missingImageGuard st "An image file is required for the project."
    | some file =>
      if file.filename = "" then
        missingImageGuard st "An image file is required for the project."
      else
        pbind (optimize_with_tinypng (env file) (some file) st.dir st.flashes
                (some 1920) none) fun r =>
        let st1 : WebState := { st with dir := r.2.1, flashes := r.2.2 }
        match r.1 with
        | some filename =>
          pbind (mdIdx req.form "title") fun title =>
          pbind (mdIdx req.form "details") fun details =>
          pbind (mdIdx req.form "category") fun category =>
          let newItem : ProjectR :=
            { id := freshId ProjectR.id st1.db.projects,
              title := title,
              client := mdGet req.form "client",
              location := mdGet req.form "location",
              project_value := mdGet req.form "project_value",
              completion_date := mdGet req.form "completion_date",
              details := details,
              image_url := some filename,
              category := category,
              date_posted := req.now }
          .ok (finishAdd
            { st1 with db := { st1.db with projects := st1.db.projects ++ [newItem] } }
            content_type)
        | none => .ok (.redirectManage content_type, st1)
  else if content_type = "blog" then
    pbind (mdIdx req.form "title") fun title =>
    pbind (mdIdx req.form "content") fun content =>
    let newItem : BlogPostR :=
      { id := freshId BlogPostR.id st.db.blogPosts, title := title, content := content,
        author := "Admin", date_posted := req.now }
    .ok (finishAdd
      { st with db := { st.db with blogPosts := st.db.blogPosts ++ [newItem] } }
      content_type)
  else if content_type = "testimonials" then
    pbind (mdIdx req.form "author") fun author =>
    pbind (mdIdx req.form "quote") fun quote =>
    let newItem : TestimonialR :=
      { id := freshId TestimonialR.id st.db.testimonials, author := author,
        position := mdGetD req.form "position" "", quote := quote }
    .ok (finishAdd
      { st with db := { st.db with testimonials := st.db.testimonials ++ [newItem] } }
      content_type)
  else if content_type = "statistics" then
    pbind (mdIdx req.form "name") fun name =>
    pbind (pbind (mdIdx req.form "value") pyInt) fun value =>
    pbind (mdIdx req.form "icon") fun icon =>
    pbind (pbind (mdIdx req.form "order_num") pyInt) fun order_num =>
    let newItem : StatisticR :=
      { id := freshId StatisticR.id st.db.statistics, name := name, value := value,
        icon := icon, order_num := order_num }
    .ok (finishAdd
      { st with db := { st.db with statistics := st.db.statistics ++ [newItem] } }
      content_type)
  else if content_type = "team_members" then
    match mdGet req.files "member_image" with
    | none => missingImageGuard st "An image file is required for the team member."
    | some file =>
      if file.filename = "" then
        missingImageGuard st "An image file is required for the team member."
      else
        pbind (optimize_with_tinypng (env file) (some file) st.dir st.flashes
                (some 800) none) fun r =>
        let st1 : WebState := { st with dir := r.2.1, flashes := r.2.2 }
        match r.1 with
        | some filename =>
          pbind (mdIdx req.form "name") fun name =>
          pbind (mdIdx req.form "position") fun position =>
          pbind (mdIdx req.form "bio") fun bio =>
          pbind (pbind (mdIdx req.form "order_num") pyInt) fun order_num =>
          let newItem : TeamMemberR :=
            { id := freshId TeamMemberR.id st1.db.teamMembers, name := name,
              position := position, bio := bio, image_url := filename,
              order_num := order_num }
          .ok (finishAdd
            { st1 with db := { st1.db with teamMembers := st1.db.teamMembers ++ [newItem] } }
            content_type)
        | none => .ok (.redirectManage content_type, st1)
  else if content_type = "services" then
    pbind (mdIdx req.form "title") fun service_title =>
    let service_slug := slugify service_title
    match mdGet req.files "service_thumbnail_image" with
    | none => missingImageGuard st "A service thumbnail image is required."
    | some file =>
      if file.filename = "" then
        missingImageGuard st "A service thumbnail image is required."
      else
        pbind (optimize_with_tinypng (env file) (some file) st.dir st.flashes
                (some 150) (some 150)) fun r1 =>
        let thumbnail_image_filename := r1.1
        let st1 : WebState := { st with dir := r1.2.1, flashes := r1.2.2 }
        pbind
          (match mdGet req.files "service_header_image" with
           | some hfile =>
             if hfile.filename = "" then .ok ((none : Option String), st1.dir, st1.flashes)
             else optimize_with_tinypng (env hfile) (some hfile) st1.dir st1.flashes
                    (some 1920) none
           | none => .ok (none, st1.dir, st1.flashes)) fun r2 =>
        let header_image_filename := r2.1
        let st2 : WebState := { st1 with dir := r2.2.1, flashes := r2.2.2 }
        pbind (mdIdx req.form "summary") fun summary =>
        pbind (mdIdx req.form "full_content") fun full_content =>
        pbind (pbind (mdIdx req.form "order_num") pyInt) fun order_num =>
        -- NOTE: unlike every other image-required branch, `new_item` is
        -- constructed and added even when `thumbnail_image_filename` is None.
        let newItem : ServiceR :=
          { id := freshId ServiceR.id st2.db.services,
            title := service_title,
            slug := service_slug,
            image_url := thumbnail_image_filename,
            summary := summary,
            full_content := full_content,
            order_num := order_num,
            header_image_url := header_image_filename,
            project_category_link := mdGet req.form "project_category_link" }
        .ok (finishAdd
          { st2 with db := { st2.db with services := st2.db.services ++ [newItem] } }
          content_type)
  else if content_type = "client_logos" then
    match mdGet req.files "logo_image" with
    | none => missingImageGuard st "An image file is required for the client logo."
    | some file =>
      if file.filename = "" then
        missingImageGuard st "An image file is required for the client logo."
      else
        pbind (optimize_with_tinypng (env file) (some file) st.dir st.flashes
                (some 400) none) fun r =>
        let st1 : WebState := { st with dir := r.2.1, flashes := r.2.2 }
        match r.1 with
        | some filename =>
          pbind (mdIdx req.form "name") fun name =>
          pbind (pbind (mdIdx req.form "order_num") pyInt) fun order_num =>
          let newItem : ClientLogoR :=
            { id := freshId ClientLogoR.id st1.db.clientLogos, name := name,
              image_url := filename, website_url := mdGetD req.form "website_url" "",
              order_num := order_num }
          .ok (finishAdd
            { st1 with db := { st1.db with clientLogos := st1.db.clientLogos ++ [newItem] } }
            content_type)
        | none => .ok (.redirectManage content_type, st1)
  else if content_type = "certifications" then
    match mdGet req.files "certification_image" with
    | none => missingImageGuard st "A certification image file is required."
    | some file =>
      if file.filename = "" then
        missingImageGuard st "A certification image file is required."
      else
        pbind (optimize_with_tinypng (env file) (some file) st.dir st.flashes
                (some 200) (some 200)) fun r =>
        let st1 : WebState := { st with dir := r.2.1, flashes := r.2.2 }
        match r.1 with
        | some filename =>
          pbind (mdIdx req.form "name") fun name =>
          pbind (pbind (mdIdx req.form "order_num") pyInt) fun order_num =>
          let newItem : CertificationR :=
            { id := freshId CertificationR.id st1.db.certifications, name := name,
              issuing_body := mdGetD req.form "issuing_body" "", image_url := some filename,
              order_num := order_num }
          .ok (finishAdd
            { st1 with db :=
                { st1.db with certifications := st1.db.certifications ++ [newItem] } }
            content_type)
        | none =>
          .ok (.redirectRequestUrl,
               addFlash st1 "Failed to upload certification image." "danger")
  else
    -- unreachable: the registry keys are exactly the eight branches above
    .ok (.redirectManage content_type, st)

/-! ### Content Dispatcher — Update (`edit_content`, POST branch) -/

/-- The type registry of `edit_content` (same keys as `manage_content`;
written out because the source repeats the dict). -/
def edit_models : List String :=
  ["projects", "blog", "testimonials", "statistics", "team_members", "services",
   "client_logos", "certifications"]

/-- The shared tail of every update: `db.session.commit`, success
flash, redirect to the listing view. -/
def finishUpdate (st : WebState) (content_type : String) : Response × WebState :=
  (.redirectManage content_type,
   addFlash st (successLabel content_type ++ " updated successfully!") "success")

/-- The gallery-upload loop of the projects edit branch: optimize each
non-empty upload at width 1200 and stage a child `ProjectImage` row
for each returned filename. `existing` is the committed table, used
for id generation of staged rows. -/
def galleryFold (env : FileStorage → OptEnv) (project_id : Nat) :
    List FileStorage → Dir → List Flash → List ProjectImageR → List ProjectImageR →
    Py (Dir × List Flash × List ProjectImageR)
  | [], dir, fl, _, acc => .ok (dir, fl, acc)
  | file :: rest, dir, fl, existing, acc =>
    if file.filename = "" then galleryFold env project_id rest dir fl existing acc
    else
      pbind (optimize_with_tinypng (env file) (some file) dir fl (some 1200) none) fun r =>
      match r.1 with
      | some fn =>
        let newImg : ProjectImageR :=
          { id := freshId ProjectImageR.id (existing ++ acc), image_url := fn,
            project_id := project_id }
        galleryFold env project_id rest r.2.1 r.2.2 existing (acc ++ [newImg])
      | none => galleryFold env project_id rest r.2.1 r.2.2 existing acc

/-- The `delete_images` loop of the projects edit branch: for each id
found, delete the file (tolerating a missing file) and drop the row.
An id that parses to no row — or does not parse — is skipped. -/
def deleteImagesFold : List String → Dir → List ProjectImageR → Dir × List ProjectImageR
  | [], dir, imgs => (dir, imgs)
  | sid :: rest, dir, imgs =>
    match pyIdNat? sid with
    | some iid =>
      match findId ProjectImageR.id imgs iid with
      | some img =>
        deleteImagesFold rest (removeFileTolerant dir img.image_url)
          (imgs.filter (fun r => r.id ≠ iid))
      | none => deleteImagesFold rest dir imgs
    | none => deleteImagesFold rest dir imgs

/--
The POST (update) branch of `edit_content`. Mirrors the source:
registry lookup (invalid type → dashboard), `get_or_404`, per-type
field updates, the image-replacement logic (note that the services
and certifications branches delete the old file *before* invoking the
optimizer, and that the team-members branch never deletes the old
file), one commit, success flash, redirect to the listing view.
-/
def edit_content_post (env : FileStorage → OptEnv) (content_type : String)
    (item_id : Nat) (req : Request) (st : WebState) : Py (Response × WebState) :=
  if ¬ edit_models.contains content_type then
    .ok (.redirectDashboard, addFlash st "Invalid content type." "danger")
  else if content_type = "projects" then
    match findId ProjectR.id st.db.projects item_id with
    | none => .ok (.notFoundPage, st)
    | some item0 =>
      pbind (mdIdx req.form "title") fun title =>
      pbind (mdIdx req.form "details") fun details =>
      pbind (mdIdx req.form "category") fun category =>
      let item1 : ProjectR :=
        { item0 with
          title := title
          client := mdGet req.form "client"
          location := mdGet req.form "location"
          project_value := mdGet req.form "project_value"
          completion_date := mdGet req.form "completion_date"
          details := details
          category := category }
      pbind
        (match mdGet req.files "project_image" with
         | some file =>
           if file.filename = "" then .ok (item1.image_url, st.dir, st.flashes)
           else
             pbind (optimize_with_tinypng (env file) (some file) st.dir st.flashes
                     (some 1920) none) fun r =>
             .ok ((match r.1 with | some fn => some fn | none => item1.image_url),
                  r.2.1, r.2.2)
         | none => .ok (item1.image_url, st.dir, st.flashes)) fun pr =>
      let item2 : ProjectR := { item1 with image_url := pr.1 }
      let st1 : WebState := { st with dir := pr.2.1, flashes := pr.2.2 }
      pbind (galleryFold env item2.id (mdGetlist req.files "gallery_images")
              st1.dir st1.flashes st1.db.projectImages []) fun g =>
      let imgsAll := st1.db.projectImages ++ g.2.2
      let del := deleteImagesFold (mdGetlist req.form "delete_images") g.1 imgsAll
      let st2 : WebState :=
        { st1 with
          dir := del.1
          flashes := g.2.1
          db := { st1.db with
                  projects := updId ProjectR.id st1.db.projects item_id item2
                  projectImages := del.2 } }
      .ok (finishUpdate st2 content_type)
  else if content_type = "blog" then
    match findId BlogPostR.id st.db.blogPosts item_id with
    | none => .ok (.notFoundPage, st)
    | some item0 =>
      pbind (mdIdx req.form "title") fun title =>
      pbind (mdIdx req.form "content") fun content =>
      let item1 : BlogPostR := { item0 with title := title, content := content }
      .ok (finishUpdate
        { st with db :=
            { st.db with blogPosts := updId BlogPostR.id st.db.blogPosts item_id item1 } }
        content_type)
  else if content_type = "testimonials" then
    match findId TestimonialR.id st.db.testimonials item_id with
    | none => .ok (.notFoundPage, st)
    | some item0 =>
      pbind (mdIdx req.form "author") fun author =>
      pbind (mdIdx req.form "quote") fun quote =>
      let item1 : TestimonialR :=
        { item0 with
          author := author
          position := mdGetD req.form "position" ""
          quote := quote }
      .ok (finishUpdate
        { st with db :=
            { st.db with
              testimonials := updId TestimonialR.id st.db.testimonials item_id item1 } }
        content_type)
  else if content_type = "statistics" then
    match findId StatisticR.id st.db.statistics item_id with
    | none => .ok (.notFoundPage, st)
    | some item0 =>
      pbind (mdIdx req.form "name") fun name =>
      pbind (pbind (mdIdx req.form "value") pyInt) fun value =>
      pbind (mdIdx req.form "icon") fun icon =>
      pbind (pbind (mdIdx req.form "order_num") pyInt) fun order_num =>
      let item1 : StatisticR :=
        { item0 with name := name, value := value, icon := icon, order_num := order_num }
      .ok (finishUpdate
        { st with db :=
            { st.db with
              statistics := updId StatisticR.id st.db.statistics item_id item1 } }
        content_type)
  else if content_type = "team_members" then
    match findId TeamMemberR.id st.db.teamMembers item_id with
    | none => .ok (.notFoundPage, st)
    | some item0 =>
      pbind (mdIdx req.form "name") fun name =>
      pbind (mdIdx req.form "position") fun position =>
      pbind (mdIdx req.form "bio") fun bio =>
      pbind (pbind (mdIdx req.form "order_num") pyInt) fun order_num =>
      let item1 : TeamMemberR :=
        { item0 with
          name := name
          position := position
          bio := bio
          order_num := order_num }
      pbind
        (match mdGet req.files "member_image" with
         | some file =>
           if file.filename = "" then .ok (item1.image_url, st.dir, st.flashes)
           else
             -- NOTE: no deletion of the previously stored file here
             pbind (optimize_with_tinypng (env file) (some file) st.dir st.flashes
                     (some 800) none) fun r =>
             .ok ((match r.1 with | some fn => fn | none => item1.image_url),
                  r.2.1, r.2.2)
         | none => .ok (item1.image_url, st.dir, st.flashes)) fun pr =>
      let item2 : TeamMemberR := { item1 with image_url := pr.1 }
      .ok (finishUpdate
        { st with
          dir := pr.2.1
          flashes := pr.2.2
          db := { st.db with
                  teamMembers := updId TeamMemberR.id st.db.teamMembers item_id item2 } }
        content_type)
  else if content_type = "services" then
    match findId ServiceR.id st.db.services item_id with
    | none => .ok (.notFoundPage, st)
    | some item0 =>
      pbind (mdIdx req.form "title") fun title =>
      pbind (mdIdx req.form "summary") fun summary =>
      pbind (mdIdx req.form "full_content") fun full_content =>
      pbind (pbind (mdIdx req.form "order_num") pyInt) fun order_num =>
      let item1 : ServiceR :=
        { item0 with
          title := title
          slug := slugify title
          summary := summary
          full_content := full_content
          order_num := order_num
          project_category_link := mdGet req.form "project_category_link" }
      pbind
        (match mdGet req.files "service_thumbnail_image" with
         | some file =>
           if file.filename = "" then .ok (item1.image_url, st.dir, st.flashes)
           else
             -- the old thumbnail file is removed BEFORE the optimizer runs
             let dir0 := if strTruthy item1.image_url then
                           removeFileTolerant st.dir (item1.image_url.getD "")
                         else st.dir
             pbind (optimize_with_tinypng (env file) (some file) dir0 st.flashes
                     (some 150) (some 150)) fun r =>
             .ok ((match r.1 with | some fn => some fn | none => item1.image_url),
                  r.2.1, r.2.2)
         | none => .ok (item1.image_url, st.dir, st.flashes)) fun tr =>
      let item2 : ServiceR := { item1 with image_url := tr.1 }
      pbind
        (match mdGet req.files "service_header_image" with
         | some file =>
           if file.filename = "" then .ok (item2.header_image_url, tr.2.1, tr.2.2)
           else
             -- the old header file is removed BEFORE the optimizer runs
             let dir0 := if strTruthy item2.header_image_url then
                           removeFileTolerant tr.2.1 (item2.header_image_url.getD "")
                         else tr.2.1
             pbind (optimize_with_tinypng (env file) (some file) dir0 tr.2.2
                     (some 1920) none) fun r =>
             .ok ((match r.1 with | some fn => some fn | none => item2.header_image_url),
                  r.2.1, r.2.2)
         | none => .ok (item2.header_image_url, tr.2.1, tr.2.2)) fun hr =>
      let item3 : ServiceR := { item2 with header_image_url := hr.1 }
      .ok (finishUpdate
        { st with
          dir := hr.2.1
          flashes := hr.2.2
          db := { st.db with
                  services := updId ServiceR.id st.db.services item_id item3 } }
        content_type)
  else if content_type = "certifications" then
    match findId CertificationR.id st.db.certifications item_id with
    | none => .ok (.notFoundPage, st)
    | some item0 =>
      pbind (mdIdx req.form "name") fun name =>
      pbind (pbind (mdIdx req.form "order_num") pyInt) fun order_num =>
      let item1 : CertificationR :=
        { item0 with
          name := name
          issuing_body := mdGetD req.form "issuing_body" ""
          order_num := order_num }
      pbind
        (match mdGet req.files "certification_image" with
         | some file =>
           if file.filename = "" then .ok (item1.image_url, st.dir, st.flashes)
           else
             -- the old certification file is removed BEFORE the optimizer runs
             let dir0 := if strTruthy item1.image_url then
                           removeFileTolerant st.dir (item1.image_url.getD "")
                         else st.dir
             pbind (optimize_with_tinypng (env file) (some file) dir0 st.flashes
                     (some 200) (some 200)) fun r =>
             .ok ((match r.1 with | some fn => some fn | none => item1.image_url),
                  r.2.1, r.2.2)
         | none => .ok (item1.image_url, st.dir, st.flashes)) fun pr =>
      let item2 : CertificationR := { item1 with image_url := pr.1 }
      .ok (finishUpdate
        { st with
          dir := pr.2.1
          flashes := pr.2.2
          db := { st.db with
                  certifications :=
                    updId CertificationR.id st.db.certifications item_id item2 } }
        content_type)
  else if content_type = "client_logos" then
    -- client_logos has no elif branch in the source: the POST falls
    -- through every field-update branch and commits no changes
    match findId ClientLogoR.id st.db.clientLogos item_id with
    | none => .ok (.notFoundPage, st)
    | some _ => .ok (finishUpdate st content_type)
  else
    -- unreachable: the registry keys are exactly the branches above
    .ok (finishUpdate st content_type)

/-! ### Content Dispatcher — Delete (`delete_content`) -/

/-- The type registry of `delete_content` — the only one that also
contains `submissions`. -/
def delete_models : List String :=
  ["projects", "blog", "testimonials", "submissions", "statistics", "team_members",
   "services", "client_logos", "certifications"]

/-- The shared tail of every delete: commit, info flash, then redirect
(to the dashboard for `submissions`, to the listing view otherwise). -/
def finishDelete (st : WebState) (content_type : String) : Response × WebState :=
  ((if content_type = "submissions" then Response.redirectDashboard
    else Response.redirectManage content_type),
   addFlash st (successLabel content_type ++ " deleted.") "info")

/--
`delete_content`. Mirrors the source: registry lookup (invalid type →
literal `"Invalid content type", 404` response), `get_or_404`,
deletion of owned files (`image_url` when the attribute exists and is
truthy, every gallery file for projects, the header image for
services; all with `OSError` swallowed), row deletion (cascading the
child `ProjectImage` rows for projects), flash, redirect.
-/
def delete_content (content_type : String) (item_id : Nat) (st : WebState) :
    Py (Response × WebState) :=
  if ¬ delete_models.contains content_type then
    .ok (.invalidContentType404, st)
  else if content_type = "projects" then
    match findId ProjectR.id st.db.projects item_id with
    | none => .ok (.notFoundPage, st)
    | some item =>
      let dir1 := if strTruthy item.image_url then
                    removeFileTolerant st.dir (item.image_url.getD "")
                  else st.dir
      let children := st.db.projectImages.filter (fun img => img.project_id = item.id)
      let dir2 := children.foldl (fun d img => removeFileTolerant d img.image_url) dir1
      let db2 : DB :=
        { st.db with
          projects := delId ProjectR.id st.db.projects item_id
          projectImages :=
            st.db.projectImages.filter (fun img => img.project_id ≠ item.id) }
      .ok (finishDelete { st with db := db2, dir := dir2 } content_type)
  else if content_type = "blog" then
    match findId BlogPostR.id st.db.blogPosts item_id with
    | none => .ok (.notFoundPage, st)
    | some _ =>
      .ok (finishDelete
        { st with db := { st.db with blogPosts := delId BlogPostR.id st.db.blogPosts item_id } }
        content_type)
  else if content_type = "testimonials" then
    match findId TestimonialR.id st.db.testimonials item_id with
    | none => .ok (.notFoundPage, st)
    | some _ =>
      .ok (finishDelete
        { st with db :=
            { st.db with testimonials := delId TestimonialR.id st.db.testimonials item_id } }
        content_type)
  else if content_type = "submissions" then
    match findId SubmissionR.id st.db.submissions item_id with
    | none => .ok (.notFoundPage, st)
    | some _ =>
      .ok (finishDelete
        { st with db :=
            { st.db with submissions := delId SubmissionR.id st.db.submissions item_id } }
        content_type)
  else if content_type = "statistics" then
    match findId StatisticR.id st.db.statistics item_id with
    | none => .ok (.notFoundPage, st)
    | some _ =>
      .ok (finishDelete
        { st with db :=
            { st.db with statistics := delId StatisticR.id st.db.statistics item_id } }
        content_type)
  else if content_type = "team_members" then
    match findId TeamMemberR.id st.db.teamMembers item_id with
    | none => .ok (.notFoundPage, st)
    | some item =>
      let dir1 := if item.image_url ≠ "" then removeFileTolerant st.dir item.image_url
                  else st.dir
      .ok (finishDelete
        { st with
          dir := dir1
          db := { st.db with
                  teamMembers := delId TeamMemberR.id st.db.teamMembers item_id } }
        content_type)
  else if content_type = "services" then
    match findId ServiceR.id st.db.services item_id with
    | none => .ok (.notFoundPage, st)
    | some item =>
      let dir1 := if strTruthy item.image_url then
                    removeFileTolerant st.dir (item.image_url.getD "")
                  else st.dir
      let dir2 := if strTruthy item.header_image_url then
                    removeFileTolerant dir1 (item.header_image_url.getD "")
                  else dir1
      .ok (finishDelete
        { st with
          dir := dir2
          db := { st.db with services := delId ServiceR.id st.db.services item_id } }
        content_type)
  else if content_type = "client_logos" then
    match findId ClientLogoR.id st.db.clientLogos item_id with
    | none => .ok (.notFoundPage, st)
    | some item =>
      let dir1 := if item.image_url ≠ "" then removeFileTolerant st.dir item.image_url
                  else st.dir
      .ok (finishDelete
        { st with
          dir := dir1
          db := { st.db with
                  clientLogos := delId ClientLogoR.id st.db.clientLogos item_id } }
        content_type)
  else if content_type = "certifications" then
    match findId CertificationR.id st.db.certifications item_id with
    | none => .ok (.notFoundPage, st)
    | some item =>
      let dir1 := if strTruthy item.image_url then
                    removeFileTolerant st.dir (item.image_url.getD "")
                  else st.dir
      .ok (finishDelete
        { st with
          dir := dir1
          db := { st.db with
                  certifications := delId CertificationR.id st.db.certifications item_id } }
        content_type)
  else
    -- unreachable: the registry keys are exactly the branches above
    .ok (.invalidContentType404, st)

/-! ## Supporting lemmas -/

/-! ### Slug derivation -/

theorem concatMap_append (f : Char → List Char) (a b : List Char) :
    concatMap f (a ++ b) = concatMap f a ++ concatMap f b := by
  induction a with
  | nil => rfl
  | cons c cs ih => simp [concatMap, ih]

theorem slugChars_append (a b : List Char) :
    slugChars (a ++ b) = slugChars a ++ slugChars b := by
  simp [slugChars, pyReplaceChar, pyLower, concatMap_append, List.map_append]

theorem slugChars_cons (c : Char) (s : List Char) :
    slugChars (c :: s) = slugChars [c] ++ slugChars s :=
  slugChars_append [c] s

/-- A character the slug pipeline leaves alone: already lowercase (in
the table sense) and not one of the three substituted characters. -/
def slugStable (c : Char) : Prop :=
  asciiLower c = c ∧ c ≠ ' ' ∧ c ≠ '&' ∧ c ≠ '/'

instance slugStableDec (c : Char) : Decidable (slugStable c) :=
  inferInstanceAs (Decidable (asciiLower c = c ∧ c ≠ ' ' ∧ c ≠ '&' ∧ c ≠ '/'))

theorem lowerPairs_snd_props :
    ∀ p ∈ lowerPairs, (lowerPairs.find? (fun q => q.1 = p.2)) = none
      ∧ p.2 ≠ ' ' ∧ p.2 ≠ '&' ∧ p.2 ≠ '/' := by decide

theorem asciiLower_of_find_none {c : Char}
    (h : lowerPairs.find? (fun p => p.1 = c) = none) : asciiLower c = c := by
  simp [asciiLower, h]

theorem slugChars_single_of_stable {c : Char} (h : slugStable c) :
    slugChars [c] = [c] := by
  obtain ⟨h1, h2, h3, h4⟩ := h
  simp [slugChars, pyLower, pyReplaceChar, concatMap, h1, h2, h3, h4]

theorem slugChars_single_stable (c : Char) : ∀ d ∈ slugChars [c], slugStable d := by
  cases hf : lowerPairs.find? (fun p => p.1 = c) with
  | some p =>
    have hmem : p ∈ lowerPairs := List.mem_of_find?_eq_some hf
    have hp := lowerPairs_snd_props p hmem
    have hlow : asciiLower c = p.2 := by simp [asciiLower, hf]
    have hsingle : slugChars [c] = [p.2] := by
      simp [slugChars, pyLower, pyReplaceChar, concatMap, hlow, hp.2.1, hp.2.2.1, hp.2.2.2]
    intro d hd
    rw [hsingle] at hd
    simp at hd
    subst hd
    exact ⟨asciiLower_of_find_none hp.1, hp.2.1, hp.2.2.1, hp.2.2.2⟩
  | none =>
    have hlow : asciiLower c = c := asciiLower_of_find_none hf
    by_cases h1 : c = ' '
    · subst h1; decide
    by_cases h2 : c = '&'
    · subst h2; decide
    by_cases h3 : c = '/'
    · subst h3; decide
    have hsingle : slugChars [c] = [c] := by
      simp [slugChars, pyLower, pyReplaceChar, concatMap, hlow, h1, h2, h3]
    intro d hd
    rw [hsingle] at hd
    simp at hd
    subst hd
    exact ⟨hlow, h1, h2, h3⟩

theorem slugChars_of_stable_list (l : List Char) (h : ∀ d ∈ l, slugStable d) :
    slugChars l = l := by
  induction l with
  | nil => rfl
  | cons c cs ih =>
    rw [slugChars_cons, slugChars_single_of_stable (h c (by simp)),
        ih (fun d hd => h d (by simp [hd]))]
    rfl

theorem slugChars_idem (s : List Char) : slugChars (slugChars s) = slugChars s := by
  induction s with
  | nil => rfl
  | cons c cs ih =>
    rw [slugChars_cons, slugChars_append, ih,
        slugChars_of_stable_list _ (slugChars_single_stable c)]

theorem slugify_idem (t : String) : slugify (slugify t) = slugify t := by
  show String.mk (slugChars (slugChars t.data)) = String.mk (slugChars t.data)
  rw [slugChars_idem]

/-! ### Upload-directory lemmas -/

theorem lookupFile_map_overwrite_ne (dir : Dir) (name n : String) (content : Bytes)
    (h : n ≠ name) :
    lookupFile (dir.map (fun e => if e.1 = name then (name, content) else e)) n
      = lookupFile dir n := by
  induction dir with
  | nil => rfl
  | cons e tl ih =>
    by_cases he : e.1 = name
    · have hne : name ≠ n := fun hx => h hx.symm
      have hen : e.1 ≠ n := by rw [he]; exact hne
      simp [lookupFile, he, hne, hen, ih]
    · by_cases hen : e.1 = n
      · simp [lookupFile, he, hen, h]
      · simp [lookupFile, he, hen, ih]

theorem lookupFile_append_one_ne (dir : Dir) (name n : String) (content : Bytes)
    (h : n ≠ name) :
    lookupFile (dir ++ [(name, content)]) n = lookupFile dir n := by
  induction dir with
  | nil =>
    have hne : name ≠ n := fun hx => h hx.symm
    simp [lookupFile, hne]
  | cons e tl ih =>
    by_cases hen : e.1 = n
    · simp [lookupFile, hen]
    · simp [lookupFile, hen, ih]

theorem lookupFile_writeFile_ne (dir : Dir) (name n : String) (content : Bytes)
    (h : n ≠ name) :
    lookupFile (writeFile dir name content) n = lookupFile dir n := by
  unfold writeFile
  by_cases hany : dir.any (fun e => e.1 = name)
  · simp only [hany, if_true]
    exact lookupFile_map_overwrite_ne dir name n content h
  · simp only [hany, if_false]
    exact lookupFile_append_one_ne dir name n content h

theorem writeFile_length_of_fresh (dir : Dir) (name : String) (content : Bytes)
    (h : dirHas dir name = false) :
    (writeFile dir name content).length = dir.length + 1 := by
  have hany : dir.any (fun e => e.1 = name) = false := by
    induction dir with
    | nil => rfl
    | cons e tl ih =>
      simp only [dirHas, Bool.or_eq_false_iff] at h
      simp [ih h.2, h.1]
  simp [writeFile, hany]

theorem lookupFile_overwrite_self (dir : Dir) (name : String) (content : Bytes)
    (hany : dir.any (fun e => e.1 = name) = true) :
    lookupFile (dir.map (fun e => if e.1 = name then (name, content) else e)) name
      = some content := by
  induction dir with
  | nil => simp at hany
  | cons e tl ih =>
    by_cases he : e.1 = name
    · simp [lookupFile, he]
    · have htl : tl.any (fun x => x.1 = name) = true := by
        simp only [List.any_cons, Bool.or_eq_true] at hany
        rcases hany with hx | hx
        · exact absurd (of_decide_eq_true hx) he
        · exact hx
      simp [lookupFile, he, ih htl]

theorem lookupFile_append_self (dir : Dir) (name : String) (content : Bytes)
    (hany : dir.any (fun e => e.1 = name) = false) :
    lookupFile (dir ++ [(name, content)]) name = some content := by
  induction dir with
  | nil => simp [lookupFile]
  | cons e tl ih =>
    simp only [List.any_cons, Bool.or_eq_false_iff] at hany
    have he : ¬ (e.1 = name) := by simpa using hany.1
    simp [lookupFile, he, ih hany.2]

theorem lookupFile_writeFile_self (dir : Dir) (name : String) (content : Bytes) :
    lookupFile (writeFile dir name content) name = some content := by
  unfold writeFile
  by_cases hany : dir.any (fun e => e.1 = name)
  · simp only [hany, if_true]
    exact lookupFile_overwrite_self dir name content hany
  · simp only [hany, if_false]
    exact lookupFile_append_self dir name content (Bool.eq_false_iff.mpr hany)

theorem dirHas_overwrite_mono (dir : Dir) (n name : String) (content : Bytes)
    (h : dirHas dir n = true) :
    dirHas (dir.map (fun e => if e.1 = name then (name, content) else e)) n = true := by
  induction dir with
  | nil => simp [dirHas] at h
  | cons e tl ih =>
    simp only [dirHas, Bool.or_eq_true] at h
    rcases h with h | h
    · by_cases he : e.1 = name
      · have hn : name = n := by rw [← he]; exact of_decide_eq_true h
        simp [dirHas, he, hn]
      · simp [dirHas, he, h]
    · by_cases he : e.1 = name <;> simp [dirHas, he, ih h]

theorem dirHas_append_mono (dir : Dir) (n : String) (x : String × Bytes)
    (h : dirHas dir n = true) :
    dirHas (dir ++ [x]) n = true := by
  induction dir with
  | nil => simp [dirHas] at h
  | cons e tl ih =>
    simp only [dirHas, Bool.or_eq_true] at h
    rcases h with h | h
    · simp [dirHas, h]
    · simp [dirHas, ih h]

theorem dirHas_writeFile_mono (dir : Dir) (n name : String) (content : Bytes)
    (h : dirHas dir n = true) :
    dirHas (writeFile dir name content) n = true := by
  unfold writeFile
  by_cases hany : dir.any (fun e => e.1 = name)
  · simp only [hany, if_true]
    exact dirHas_overwrite_mono dir n name content h
  · simp only [hany, if_false]
    exact dirHas_append_mono dir n (name, content) h

theorem dirHas_remove_self (dir : Dir) (n : String) :
    dirHas (removeFileTolerant dir n) n = false := by
  induction dir with
  | nil => rfl
  | cons e tl ih =>
    by_cases he : e.1 = n
    · simpa [removeFileTolerant, he] using ih
    · simpa [removeFileTolerant, dirHas, he] using ih

theorem dirHas_remove_mono (dir : Dir) (n m : String)
    (h : dirHas dir n = false) :
    dirHas (removeFileTolerant dir m) n = false := by
  induction dir with
  | nil => rfl
  | cons e tl ih =>
    simp only [dirHas, Bool.or_eq_false_iff] at h
    by_cases he : e.1 = m
    · simpa [removeFileTolerant, he] using ih h.2
    · simpa [removeFileTolerant, dirHas, he, h.1] using ih h.2

theorem filter_ne_then_filter_eq_nil {α : Type} (f : α → Nat) (v : Nat) (l : List α) :
    ((l.filter (fun a => f a ≠ v)).filter (fun a => f a = v)) = [] := by
  induction l with
  | nil => rfl
  | cons a tl ih => by_cases h : f a = v <;> simp [h, ih]

/-! ### Store lemmas -/

theorem findId_eq_id {α : Type} (idOf : α → Nat) (l : List α) (i : Nat) (r : α)
    (h : findId idOf l i = some r) : idOf r = i := by
  have := List.find?_some h
  simpa using this

theorem findId_delId_self {α : Type} (idOf : α → Nat) (l : List α) (i : Nat) :
    findId idOf (delId idOf l i) i = none := by
  simp only [findId, delId]
  rw [List.find?_eq_none]
  intro a ha
  have := (List.mem_filter.mp ha).2
  simpa using this

theorem findId_updId_of_found {α : Type} (idOf : α → Nat) (l : List α) (i : Nat)
    (r r2 : α) (hfound : findId idOf l i = some r) (h2 : idOf r2 = i) :
    findId idOf (updId idOf l i r2) i = some r2 := by
  induction l with
  | nil => simp [findId] at hfound
  | cons a tl ih =>
    by_cases ha : idOf a = i
    · have hhead : updId idOf (a :: tl) i r2 = r2 :: updId idOf tl i r2 := by
        simp [updId, ha]
      rw [hhead]
      simp [findId, List.find?, h2]
    · have hhead : updId idOf (a :: tl) i r2 = a :: updId idOf tl i r2 := by
        simp [updId, ha]
      have hskip : findId idOf (a :: tl) i = findId idOf tl i := by
        simp only [findId]
        exact List.find?_cons_of_neg _ (by simpa using ha)
      rw [hskip] at hfound
      rw [hhead]
      have hskip2 : findId idOf (a :: updId idOf tl i r2) i
          = findId idOf (updId idOf tl i r2) i := by
        simp only [findId]
        exact List.find?_cons_of_neg _ (by simpa using ha)
      rw [hskip2]
      exact ih hfound

/-! ## Concrete fixtures (used by witnesses and counterexamples) -/

/-- Oracle: the remote service succeeds (and, for concreteness,
returns the input bytes unchanged). -/
def envSuccess : FileStorage → OptEnv :=
  fun _ => ⟨.success, fun _ b => b, true⟩

/-- Oracle: an unexpected error during optimization. -/
def envGenFail : OptEnv := ⟨.genError "simulated failure", fun _ b => b, true⟩

/-- Oracle: the remote service raises `tinify.Error`; the raw fallback
save succeeds. -/
def envSvcFallback : OptEnv := ⟨.svcError "overlimit", fun _ b => b, true⟩

/-- Oracle: the remote service raises `tinify.Error`; the raw fallback
save itself raises. -/
def envSvcSaveFail : OptEnv := ⟨.svcError "overlimit", fun _ b => b, false⟩

/-- Oracle: every optimizer call hits an unexpected error (per-file
form for the dispatchers). -/
def envFailureAll : FileStorage → OptEnv := fun _ => envGenFail

def stEmpty : WebState := ⟨emptyDB, [], []⟩

/-! ## Claim theorems -/

def reqServiceCreate : Request :=
  ⟨[("title", "Roads"), ("summary", "s"), ("full_content", "f"), ("order_num", "1")],
   [("service_thumbnail_image", ⟨"thumb.png", [7]⟩)], 0⟩

/--
Claim C1. The claim says that, for every image-required content type, a
create whose required-image optimization returns null fails with
`ImageProcessingFailed` and persists no partial entity. The code
violates this for the `services` type: the services branch of
`manage_content` builds and commits `new_item` without checking
`thumbnail_image_filename`, so a Service row is persisted with a null
required thumbnail (and a success flash), while no image file exists.
This theorem evaluates the embedded handler at that failing input: a
valid services create form whose thumbnail optimization fails
unexpectedly yields a committed Service with `image_url = none`, an
empty upload directory, and the `added successfully` flash.
-/
theorem c1_services_create_persists_partial_entity :
    manage_content_post envFailureAll "services" reqServiceCreate stEmpty =
      .ok (.redirectManage "services",
        ⟨{ emptyDB with services := [⟨1, "Roads", "roads", none, "s", "f", 1, none, none⟩] },
         [],
         [("An unexpected error occurred during image processing: simulated failure",
           "danger"),
          ("Service added successfully!", "success")]⟩) := by
  rfl

/--
Claim C2. On a remote-service failure (`tinify.Error`) with a non-empty
upload, `optimize_with_tinypng` writes the original uploaded bytes
unchanged under the original sanitized filename in the destination
directory and returns that filename (not null). Moreover the write
touches no other name, and when the sanitized name was not already
present the directory gains exactly one new file.
-/
theorem c2_remote_failure_fallback_saves_original (env : OptEnv) (fs : FileStorage)
    (dir : Dir) (fl : List Flash) (mw mh : Option Nat) (msg : String)
    (hname : fs.filename ≠ "") (hout : env.outcome = .svcError msg)
    (hsave : env.fallbackSaveOk = true) :
    optimize_with_tinypng env (some fs) dir fl mw mh =
      .ok (some (secure_filename fs.filename),
           writeFile dir (secure_filename fs.filename) fs.content,
           fl ++ [("Image optimization failed: " ++ msg ++
                   ". Attempting to save original file.", "warning")])
    ∧ lookupFile (writeFile dir (secure_filename fs.filename) fs.content)
        (secure_filename fs.filename) = some fs.content
    ∧ (∀ n, n ≠ secure_filename fs.filename →
        lookupFile (writeFile dir (secure_filename fs.filename) fs.content) n
          = lookupFile dir n)
    ∧ (dirHas dir (secure_filename fs.filename) = false →
        (writeFile dir (secure_filename fs.filename) fs.content).length
          = dir.length + 1) := by
  refine ⟨?_, lookupFile_writeFile_self _ _ _,
    fun n hn => lookupFile_writeFile_ne _ _ _ _ hn,
    fun hfresh => writeFile_length_of_fresh _ _ _ hfresh⟩
  simp [optimize_with_tinypng, hname, hout, hsave]

/-- Witness for C2 at a concrete input. -/
theorem c2_remote_failure_fallback_witness :
    optimize_with_tinypng envSvcFallback (some ⟨"a b.png", [9]⟩) [] []
        (some 150) (some 150) =
      .ok (some (secure_filename "a b.png"), writeFile [] (secure_filename "a b.png") [9],
           [("Image optimization failed: overlimit. Attempting to save original file.",
             "warning")]) :=
  (c2_remote_failure_fallback_saves_original envSvcFallback ⟨"a b.png", [9]⟩ [] []
    (some 150) (some 150) "overlimit" (by decide) rfl rfl).1

/--
Claim C5, counterexample. The claim says every failure other than a
remote-service failure with a successful fallback — explicitly
including a failure while *saving the fallback file* — returns null
without propagating an exception. In the code the fallback
`file_storage.save` runs inside the `except tinify.Error` handler, so
an exception it raises is not caught by the `except Exception` clause
of the same `try` and propagates to the caller. Concretely: a
`tinify.Error` followed by a failing fallback save makes the call
raise instead of returning null.
-/
theorem c5_fallback_save_failure_propagates_counterexample :
    optimize_with_tinypng envSvcSaveFail (some ⟨"a.png", [9]⟩) [] []
        (some 150) (some 150) =
      .error "OSError during fallback save" := rfl

/--
Claim C5, amended: any unexpected failure raised inside the main `try`
block (reading, resizing, converting, or saving the *optimized* file)
makes `optimize_with_tinypng` return null with no file written and no
exception; but a failure while saving the *fallback* file after a
remote-service error propagates an exception to the caller.
-/
theorem c5_amended_unexpected_failure_returns_null (env : OptEnv) (fs : FileStorage)
    (dir : Dir) (fl : List Flash) (mw mh : Option Nat) (msg : String)
    (hname : fs.filename ≠ "") :
    (env.outcome = .genError msg →
      optimize_with_tinypng env (some fs) dir fl mw mh =
        .ok (none, dir,
             fl ++ [("An unexpected error occurred during image processing: " ++ msg,
                     "danger")]))
    ∧ (env.outcome = .svcError msg → env.fallbackSaveOk = false →
      optimize_with_tinypng env (some fs) dir fl mw mh =
        .error "OSError during fallback save") := by
  constructor
  · intro hout
    simp [optimize_with_tinypng, hname, hout]
  · intro hout hsave
    simp [optimize_with_tinypng, hname, hout, hsave]

/-- Witness for the amended C5 at a concrete input. -/
theorem c5_amended_witness :
    optimize_with_tinypng envGenFail (some ⟨"a.png", [9]⟩) [] []
        (some 150) (some 150) =
      .ok (none, [],
           [("An unexpected error occurred during image processing: simulated failure",
             "danger")]) :=
  (c5_amended_unexpected_failure_returns_null envGenFail ⟨"a.png", [9]⟩ [] []
    (some 150) (some 150) "simulated failure" (by decide)).1 rfl

def tmFixture : TeamMemberR := ⟨1, "Ann", "Engineer", "bio", "old.webp", 0⟩

def stTeam : WebState := ⟨{ emptyDB with teamMembers := [tmFixture] }, [("old.webp", [1])], []⟩

def reqTeamEdit : Request :=
  ⟨[("name", "Ann"), ("position", "Engineer"), ("bio", "bio"), ("order_num", "0")],
   [("member_image", ⟨"new.png", [2]⟩)], 0⟩

/--
Claim C3, counterexample. The claim says a TeamMember update with a new
image whose optimization succeeds removes the previously stored file.
The team-members branch of `edit_content` never deletes the old file:
here the member's stored filename becomes `new.webp` but `old.webp`
is still present in the upload directory after the update.
-/
theorem c3_team_member_edit_counterexample :
    (stateOf (edit_content_post envSuccess "team_members" 1 reqTeamEdit stTeam)).map
        (fun st => ((findId TeamMemberR.id st.db.teamMembers 1).map (fun tm => tm.image_url),
                    dirHas st.dir "old.webp"))
      = some (some "new.webp", true) := by rfl

/--
Claim C3, amended: a TeamMember update with a non-empty new image whose
optimization succeeds replaces the stored filename with the new one
but leaves the previously stored file in the upload directory (no
file already present is ever removed by this branch); an update
without a new image leaves the existing filename untouched.
-/
theorem c3_amended_team_member_edit_replaces_without_delete
    (env : FileStorage → OptEnv) (req : Request) (st : WebState) (i : Nat)
    (tm : TeamMemberR) (nm pos bio onum : String) (ov : Int)
    (hfind : findId TeamMemberR.id st.db.teamMembers i = some tm)
    (hnm : mdGet req.form "name" = some nm)
    (hpos : mdGet req.form "position" = some pos)
    (hbio : mdGet req.form "bio" = some bio)
    (honum : mdGet req.form "order_num" = some onum)
    (hparse : pyInt onum = .ok ov) :
    (∀ f, mdGet req.files "member_image" = some f → f.filename ≠ "" →
      (env f).outcome = .success →
      edit_content_post env "team_members" i req st =
        .ok (finishUpdate
          { st with
            dir := writeFile st.dir (splitextBase (secure_filename f.filename) ++ ".webp")
                     ((env f).transform (resizeStrategy (some 800) none) f.content)
            db := { st.db with
                    teamMembers := updId TeamMemberR.id st.db.teamMembers i
                      { tm with
                        name := nm
                        position := pos
                        bio := bio
                        order_num := ov
                        image_url := splitextBase (secure_filename f.filename) ++ ".webp" } } }
          "team_members")
      ∧ (∀ n, dirHas st.dir n = true →
          dirHas (writeFile st.dir (splitextBase (secure_filename f.filename) ++ ".webp")
                   ((env f).transform (resizeStrategy (some 800) none) f.content)) n
            = true))
    ∧ (mdGet req.files "member_image" = none →
      edit_content_post env "team_members" i req st =
        .ok (finishUpdate
          { st with
            db := { st.db with
                    teamMembers := updId TeamMemberR.id st.db.teamMembers i
                      { tm with
                        name := nm
                        position := pos
                        bio := bio
                        order_num := ov } } }
          "team_members")) := by
  constructor
  · intro f hf hfn hout
    refine ⟨?_, fun n hn => dirHas_writeFile_mono _ _ _ _ hn⟩
    simp [edit_content_post, edit_models, mdIdx, pbind, optimize_with_tinypng,
          hfind, hnm, hpos, hbio, honum, hparse, hf, hfn, hout]
  · intro hf
    simp [edit_content_post, edit_models, mdIdx, pbind,
          hfind, hnm, hpos, hbio, honum, hparse, hf]

/-- Witness for the amended C3 at a concrete input. -/
theorem c3_amended_witness :
    edit_content_post envSuccess "team_members" 1 reqTeamEdit stTeam =
      .ok (finishUpdate
        { stTeam with
          dir := writeFile stTeam.dir
                   (splitextBase (secure_filename "new.png") ++ ".webp")
                   ((envSuccess ⟨"new.png", [2]⟩).transform
                     (resizeStrategy (some 800) none) [2])
          db := { stTeam.db with
                  teamMembers := updId TeamMemberR.id stTeam.db.teamMembers 1
                    { tmFixture with
                      name := "Ann"
                      position := "Engineer"
                      bio := "bio"
                      order_num := 0
                      image_url := splitextBase (secure_filename "new.png") ++ ".webp" } } }
        "team_members") :=
  ((c3_amended_team_member_edit_replaces_without_delete envSuccess reqTeamEdit stTeam 1
      tmFixture "Ann" "Engineer" "bio" "0" 0 rfl rfl rfl rfl rfl rfl).1
    ⟨"new.png", [2]⟩ rfl (by decide) rfl).1

def svFixture : ServiceR := ⟨1, "Tanks", "tanks", some "old.webp", "s", "f", 0, none, none⟩

def stService : WebState := ⟨{ emptyDB with services := [svFixture] }, [("old.webp", [1])], []⟩

def reqServiceEdit : Request :=
  ⟨[("title", "Tanks"), ("summary", "s"), ("full_content", "f"), ("order_num", "0")],
   [("service_thumbnail_image", ⟨"new.png", [2]⟩)], 0⟩

/--
Claim C4, counterexample. The claim says that, on a single-image field
update, the old file is deleted only *after* the optimizer has
returned a new filename, so an optimizer failure leaves the old file
in place. In the code the services (and certifications) edit branches
delete the old file *before* invoking the optimizer. Concretely: a
service with stored thumbnail `old.webp` is edited with a new upload
whose optimization fails; afterwards the stored field still says
`old.webp` but the file is gone from the upload directory.
-/
theorem c4_old_file_deleted_before_optimizer_counterexample :
    (stateOf (edit_content_post envFailureAll "services" 1 reqServiceEdit stService)).map
        (fun st => ((findId ServiceR.id st.db.services 1).map (fun sv => sv.image_url),
                    dirHas st.dir "old.webp"))
      = some (some (some "old.webp"), false) := by rfl

/--
Claim C4, amended: on the Service-thumbnail, Service-header and
Certification-image edits the old file is deleted from storage
*before* the optimizer is invoked. Consequently an optimizer failure
leaves the old file already removed while the field retains the stale
filename; on success the field is set to the new filename and the old
file is (still) gone.
-/
theorem c4_amended_old_file_deleted_before_optimizer
    (env : FileStorage → OptEnv) (req : Request) (st : WebState) (i : Nat) (msg : String) :
    (∀ (sv : ServiceR) (t sm fc onum old : String) (ov : Int) (f : FileStorage),
      findId ServiceR.id st.db.services i = some sv →
      mdGet req.form "title" = some t →
      mdGet req.form "summary" = some sm →
      mdGet req.form "full_content" = some fc →
      mdGet req.form "order_num" = some onum →
      pyInt onum = .ok ov →
      sv.image_url = some old → old ≠ "" →
      mdGet req.files "service_thumbnail_image" = some f → f.filename ≠ "" →
      mdGet req.files "service_header_image" = none →
      ((env f).outcome = .genError msg →
        edit_content_post env "services" i req st =
          .ok (finishUpdate
            { st with
              dir := removeFileTolerant st.dir old
              flashes := st.flashes ++
                [("An unexpected error occurred during image processing: " ++ msg,
                  "danger")]
              db := { st.db with
                      services := updId ServiceR.id st.db.services i
                        { sv with
                          title := t
                          slug := slugify t
                          summary := sm
                          full_content := fc
                          order_num := ov
                          project_category_link := mdGet req.form "project_category_link"
                          image_url := some old } } }
            "services")
        ∧ dirHas (removeFileTolerant st.dir old) old = false)
      ∧ ((env f).outcome = .success →
        edit_content_post env "services" i req st =
          .ok (finishUpdate
            { st with
              dir := writeFile (removeFileTolerant st.dir old)
                       (splitextBase (secure_filename f.filename) ++ ".webp")
                       ((env f).transform (resizeStrategy (some 150) (some 150)) f.content)
              db := { st.db with
                      services := updId ServiceR.id st.db.services i
                        { sv with
                          title := t
                          slug := slugify t
                          summary := sm
                          full_content := fc
                          order_num := ov
                          project_category_link := mdGet req.form "project_category_link"
                          image_url := some (splitextBase (secure_filename f.filename)
                                              ++ ".webp") } } }
            "services")))
    ∧ (∀ (sv : ServiceR) (t sm fc onum oldH : String) (ov : Int) (g : FileStorage),
      findId ServiceR.id st.db.services i = some sv →
      mdGet req.form "title" = some t →
      mdGet req.form "summary" = some sm →
      mdGet req.form "full_content" = some fc →
      mdGet req.form "order_num" = some onum →
      pyInt onum = .ok ov →
      sv.header_image_url = some oldH → oldH ≠ "" →
      mdGet req.files "service_thumbnail_image" = none →
      mdGet req.files "service_header_image" = some g → g.filename ≠ "" →
      (env g).outcome = .genError msg →
      edit_content_post env "services" i req st =
        .ok (finishUpdate
          { st with
            dir := removeFileTolerant st.dir oldH
            flashes := st.flashes ++
              [("An unexpected error occurred during image processing: " ++ msg,
                "danger")]
            db := { st.db with
                    services := updId ServiceR.id st.db.services i
                      { sv with
                        title := t
                        slug := slugify t
                        summary := sm
                        full_content := fc
                        order_num := ov
                        project_category_link := mdGet req.form "project_category_link"
                        header_image_url := some oldH } } }
          "services")
      ∧ dirHas (removeFileTolerant st.dir oldH) oldH = false)
    ∧ (∀ (ce : CertificationR) (nm onum oldC : String) (ov : Int) (f : FileStorage),
      findId CertificationR.id st.db.certifications i = some ce →
      mdGet req.form "name" = some nm →
      mdGet req.form "order_num" = some onum →
      pyInt onum = .ok ov →
      ce.image_url = some oldC → oldC ≠ "" →
      mdGet req.files "certification_image" = some f → f.filename ≠ "" →
      (env f).outcome = .genError msg →
      edit_content_post env "certifications" i req st =
        .ok (finishUpdate
          { st with
            dir := removeFileTolerant st.dir oldC
            flashes := st.flashes ++
              [("An unexpected error occurred during image processing: " ++ msg,
                "danger")]
            db := { st.db with
                    certifications := updId CertificationR.id st.db.certifications i
                      { ce with
                        name := nm
                        issuing_body := mdGetD req.form "issuing_body" ""
                        order_num := ov
                        image_url := some oldC } } }
          "certifications")
      ∧ dirHas (removeFileTolerant st.dir oldC) oldC = false) := by
  refine ⟨?_, ?_, ?_⟩
  · intro sv t sm fc onum old ov f hfind ht hsm hfc honum hparse hold holdne hf hfn hhdr
    constructor
    · intro hout
      refine ⟨?_, dirHas_remove_self _ _⟩
      simp [edit_content_post, edit_models, mdIdx, pbind, optimize_with_tinypng, strTruthy,
            hfind, ht, hsm, hfc, honum, hparse, hold, holdne, hf, hfn, hhdr, hout]
    · intro hout
      simp [edit_content_post, edit_models, mdIdx, pbind, optimize_with_tinypng, strTruthy,
            hfind, ht, hsm, hfc, honum, hparse, hold, holdne, hf, hfn, hhdr, hout]
  · intro sv t sm fc onum oldH ov g hfind ht hsm hfc honum hparse hold holdne hthumb hg hgn hout
    refine ⟨?_, dirHas_remove_self _ _⟩
    simp [edit_content_post, edit_models, mdIdx, pbind, optimize_with_tinypng, strTruthy,
          hfind, ht, hsm, hfc, honum, hparse, hold, holdne, hthumb, hg, hgn, hout]
  · intro ce nm onum oldC ov f hfind hnm honum hparse hold holdne hf hfn hout
    refine ⟨?_, dirHas_remove_self _ _⟩
    simp [edit_content_post, edit_models, mdIdx, pbind, optimize_with_tinypng, strTruthy,
          hfind, hnm, honum, hparse, hold, holdne, hf, hfn, hout]

/-- Witness for the amended C4 at a concrete input. -/
theorem c4_amended_witness :
    edit_content_post envFailureAll "services" 1 reqServiceEdit stService =
      .ok (finishUpdate
        { stService with
          dir := removeFileTolerant stService.dir "old.webp"
          flashes := stService.flashes ++
            [("An unexpected error occurred during image processing: simulated failure",
              "danger")]
          db := { stService.db with
                  services := updId ServiceR.id stService.db.services 1
                    { svFixture with
                      title := "Tanks"
                      slug := slugify "Tanks"
                      summary := "s"
                      full_content := "f"
                      order_num := 0
                      project_category_link := mdGet reqServiceEdit.form "project_category_link"
                      image_url := some "old.webp" } } }
        "services") :=
  (((c4_amended_old_file_deleted_before_optimizer envFailureAll reqServiceEdit stService 1
      "simulated failure").1 svFixture "Tanks" "s" "f" "0" "old.webp" 0
      ⟨"new.png", [2]⟩ rfl rfl rfl rfl rfl rfl rfl (by decide) rfl (by decide) rfl).1 rfl).1

/-- A required image field that is absent from the request, or present
with an empty filename. -/
def imageFieldMissing (req : Request) (k : String) : Prop :=
  mdGet req.files k = none ∨ ∃ f, mdGet req.files k = some f ∧ f.filename = ""

/--
Claim C6. For every image-required content type (projects, team
members, services, client logos, certifications), a create request
that omits the required image field, or supplies it with an empty
filename, is rejected with the type's required-image danger flash and
a redirect back to the form. The resulting state is `addFlash st …`,
which leaves the database (so the count for the type) and the upload
directory untouched — the last conjunct records that explicitly.
(The services branch reads `request.form['title']` before the image
guard, hence its extra hypothesis.)
-/
theorem c6_missing_required_image_rejected :
    (∀ (env : FileStorage → OptEnv) (req : Request) (st : WebState),
      imageFieldMissing req "project_image" →
      manage_content_post env "projects" req st =
        .ok (.redirectRequestUrl,
             addFlash st "An image file is required for the project." "danger"))
    ∧ (∀ (env : FileStorage → OptEnv) (req : Request) (st : WebState),
      imageFieldMissing req "member_image" →
      manage_content_post env "team_members" req st =
        .ok (.redirectRequestUrl,
             addFlash st "An image file is required for the team member." "danger"))
    ∧ (∀ (env : FileStorage → OptEnv) (req : Request) (st : WebState) (t : String),
      mdGet req.form "title" = some t →
      imageFieldMissing req "service_thumbnail_image" →
      manage_content_post env "services" req st =
        .ok (.redirectRequestUrl,
             addFlash st "A service thumbnail image is required." "danger"))
    ∧ (∀ (env : FileStorage → OptEnv) (req : Request) (st : WebState),
      imageFieldMissing req "logo_image" →
      manage_content_post env "client_logos" req st =
        .ok (.redirectRequestUrl,
             addFlash st "An image file is required for the client logo." "danger"))
    ∧ (∀ (env : FileStorage → OptEnv) (req : Request) (st : WebState),
      imageFieldMissing req "certification_image" →
      manage_content_post env "certifications" req st =
        .ok (.redirectRequestUrl,
             addFlash st "A certification image file is required." "danger"))
    ∧ (∀ (st : WebState) (m c : String),
      (addFlash st m c).db = st.db ∧ (addFlash st m c).dir = st.dir) := by
  refine ⟨?_, ?_, ?_, ?_, ?_, fun st m c => ⟨rfl, rfl⟩⟩
  · intro env req st himg
    rcases himg with h | ⟨f, hf, hfe⟩
    · simp [manage_content_post, manage_models, missingImageGuard, h]
    · simp [manage_content_post, manage_models, missingImageGuard, hf, hfe]
  · intro env req st himg
    rcases himg with h | ⟨f, hf, hfe⟩
    · simp [manage_content_post, manage_models, missingImageGuard, h]
    · simp [manage_content_post, manage_models, missingImageGuard, hf, hfe]
  · intro env req st t ht himg
    rcases himg with h | ⟨f, hf, hfe⟩
    · simp [manage_content_post, manage_models, missingImageGuard, mdIdx, pbind, ht, h]
    · simp [manage_content_post, manage_models, missingImageGuard, mdIdx, pbind, ht, hf, hfe]
  · intro env req st himg
    rcases himg with h | ⟨f, hf, hfe⟩
    · simp [manage_content_post, manage_models, missingImageGuard, h]
    · simp [manage_content_post, manage_models, missingImageGuard, hf, hfe]
  · intro env req st himg
    rcases himg with h | ⟨f, hf, hfe⟩
    · simp [manage_content_post, manage_models, missingImageGuard, h]
    · simp [manage_content_post, manage_models, missingImageGuard, hf, hfe]

def reqNoFiles : Request := ⟨[("title", "T")], [], 0⟩

/-- Witness for C6 at a concrete input. -/
theorem c6_missing_required_image_witness :
    manage_content_post envSuccess "projects" reqNoFiles stEmpty =
      .ok (.redirectRequestUrl,
           addFlash stEmpty "An image file is required for the project." "danger") :=
  c6_missing_required_image_rejected.1 envSuccess reqNoFiles stEmpty (Or.inl rfl)

/--
Claim C7. Slug derivation from a Service title is the pure function
`slugify` (lowercase, then substitute `-` for spaces, `and` for
ampersands, `_` for slashes): the worked example holds, the function
is idempotent and deterministic, and both the services create branch
of `manage_content` and the services edit branch of `edit_content`
recompute the stored slug as `slugify` of the submitted title.
-/
theorem c7_slug_derivation_deterministic_idempotent :
    slugify "Solar & Power Systems" = "solar-and-power-systems"
    ∧ (∀ t, slugify (slugify t) = slugify t)
    ∧ (∀ t1 t2 : String, t1 = t2 → slugify t1 = slugify t2)
    ∧ (∀ (env : FileStorage → OptEnv) (req : Request) (st : WebState)
        (t sm fc onum : String) (ov : Int) (f : FileStorage),
      mdGet req.form "title" = some t →
      mdGet req.form "summary" = some sm →
      mdGet req.form "full_content" = some fc →
      mdGet req.form "order_num" = some onum →
      pyInt onum = .ok ov →
      mdGet req.files "service_thumbnail_image" = some f → f.filename ≠ "" →
      (env f).outcome = .success →
      mdGet req.files "service_header_image" = none →
      (stateOf (manage_content_post env "services" req st)).map
          (fun s2 => s2.db.services.map (fun s => (s.title, s.slug)))
        = some (st.db.services.map (fun s => (s.title, s.slug)) ++ [(t, slugify t)]))
    ∧ (∀ (env : FileStorage → OptEnv) (req : Request) (st : WebState) (i : Nat)
        (sv : ServiceR) (t sm fc onum : String) (ov : Int),
      findId ServiceR.id st.db.services i = some sv →
      mdGet req.form "title" = some t →
      mdGet req.form "summary" = some sm →
      mdGet req.form "full_content" = some fc →
      mdGet req.form "order_num" = some onum →
      pyInt onum = .ok ov →
      mdGet req.files "service_thumbnail_image" = none →
      mdGet req.files "service_header_image" = none →
      (stateOf (edit_content_post env "services" i req st)).map
          (fun s2 => (findId ServiceR.id s2.db.services i).map (fun s => (s.title, s.slug)))
        = some (some (t, slugify t))) := by
  refine ⟨by rfl, slugify_idem, fun t1 t2 h => by rw [h], ?_, ?_⟩
  · intro env req st t sm fc onum ov f ht hsm hfc honum hparse hf hfn hout hhdr
    simp [manage_content_post, manage_models, mdIdx, pbind, optimize_with_tinypng,
          finishAdd, addFlash, stateOf, Except.toOption,
          ht, hsm, hfc, honum, hparse, hf, hfn, hout, hhdr]
  · intro env req st i sv t sm fc onum ov hfind ht hsm hfc honum hparse hthumb hhdr
    have hid : ServiceR.id sv = i := findId_eq_id _ _ _ _ hfind
    have hrun : edit_content_post env "services" i req st =
        .ok (finishUpdate
          { st with db := { st.db with services := updId ServiceR.id st.db.services i { sv with title := t, slug := slugify t, summary := sm, full_content := fc, order_num := ov, project_category_link := mdGet req.form "project_category_link" } } }
          "services") := by
      simp [edit_content_post, edit_models, mdIdx, pbind,
            hfind, ht, hsm, hfc, honum, hparse, hthumb, hhdr]
    rw [hrun]
    have hfind2 := findId_updId_of_found ServiceR.id st.db.services i sv { sv with title := t, slug := slugify t, summary := sm, full_content := fc, order_num := ov, project_category_link := mdGet req.form "project_category_link" } hfind (by simpa using hid)
    simp [stateOf, Except.toOption, finishUpdate, addFlash, hfind2]

/-- Witness for the dispatcher conjuncts of C7 at a concrete input. -/
theorem c7_slug_derivation_witness :
    (stateOf (manage_content_post envSuccess "services" reqServiceCreate stEmpty)).map
        (fun s2 => s2.db.services.map (fun s => (s.title, s.slug)))
      = some (stEmpty.db.services.map (fun s => (s.title, s.slug))
              ++ [("Roads", slugify "Roads")]) :=
  c7_slug_derivation_deterministic_idempotent.2.2.2.1 envSuccess reqServiceCreate stEmpty
    "Roads" "s" "f" "1" 1 ⟨"thumb.png", [7]⟩ rfl rfl rfl rfl rfl rfl (by decide) rfl rfl

/--
Claim C8. Deleting a Project whose primary image is `f0` and whose
child gallery rows are exactly `[g1, g2]` removes the project row,
removes both child rows (the cascade), and removes all three files
from the upload directory: the final state is spelled out in the
first conjunct, and the remaining conjuncts record that none of the
three filenames is present afterwards, that the project id no longer
resolves, and that no child row with that project id survives.
-/
theorem c8_delete_project_cascades
    (st : WebState) (i : Nat) (p : ProjectR) (g1 g2 : ProjectImageR) (f0 : String)
    (hp : findId ProjectR.id st.db.projects i = some p)
    (himg : p.image_url = some f0) (hf0 : f0 ≠ "")
    (hch : st.db.projectImages.filter (fun img => img.project_id = p.id) = [g1, g2]) :
    delete_content "projects" i st =
      .ok (finishDelete
        { st with
          dir := removeFileTolerant
                   (removeFileTolerant (removeFileTolerant st.dir f0) g1.image_url)
                   g2.image_url
          db := { st.db with
                  projects := delId ProjectR.id st.db.projects i
                  projectImages :=
                    st.db.projectImages.filter (fun img => img.project_id ≠ p.id) } }
        "projects")
    ∧ dirHas (removeFileTolerant
               (removeFileTolerant (removeFileTolerant st.dir f0) g1.image_url)
               g2.image_url) f0 = false
    ∧ dirHas (removeFileTolerant
               (removeFileTolerant (removeFileTolerant st.dir f0) g1.image_url)
               g2.image_url) g1.image_url = false
    ∧ dirHas (removeFileTolerant
               (removeFileTolerant (removeFileTolerant st.dir f0) g1.image_url)
               g2.image_url) g2.image_url = false
    ∧ findId ProjectR.id (delId ProjectR.id st.db.projects i) i = none
    ∧ ((st.db.projectImages.filter (fun img => img.project_id ≠ p.id)).filter
        (fun img => img.project_id = p.id)) = [] := by
  refine ⟨?_,
    dirHas_remove_mono _ _ _ (dirHas_remove_mono _ _ _ (dirHas_remove_self _ _)),
    dirHas_remove_mono _ _ _ (dirHas_remove_self _ _),
    dirHas_remove_self _ _,
    findId_delId_self _ _ _,
    filter_ne_then_filter_eq_nil _ _ _⟩
  simp [delete_content, delete_models, strTruthy, hp, himg, hf0, hch]

def pjFixture : ProjectR :=
  ⟨1, "Bridge", none, none, none, none, "d", some "p.webp", "General Construction", 0⟩

def stProject : WebState :=
  ⟨{ emptyDB with projects := [pjFixture], projectImages := [⟨1, "g1.webp", 1⟩, ⟨2, "g2.webp", 1⟩] },
   [("p.webp", [1]), ("g1.webp", [2]), ("g2.webp", [3]), ("other.webp", [4])], []⟩

/-- Witness for C8 at a concrete input. -/
theorem c8_delete_project_cascades_witness :
    delete_content "projects" 1 stProject =
      .ok (finishDelete
        { stProject with
          dir := removeFileTolerant
                   (removeFileTolerant (removeFileTolerant stProject.dir "p.webp") "g1.webp")
                   "g2.webp"
          db := { stProject.db with
                  projects := delId ProjectR.id stProject.db.projects 1
                  projectImages :=
                    stProject.db.projectImages.filter
                      (fun img => img.project_id ≠ pjFixture.id) } }
        "projects") :=
  (c8_delete_project_cascades stProject 1 pjFixture ⟨1, "g1.webp", 1⟩ ⟨2, "g2.webp", 1⟩
    "p.webp" rfl rfl (by decide) rfl).1

/--
Claim C9, counterexample. The claim says all three admin operations
redirect to the dashboard with an error message on an unknown
content-type identifier. `delete_content` instead returns the literal
error response `"Invalid content type", 404` to the client, with no
flash message and no redirect.
-/
theorem c9_unknown_type_delete_counterexample :
    delete_content "bogus" 1 stEmpty = .ok (.invalidContentType404, stEmpty) := rfl

/--
Claim C9, amended: on an unknown content-type identifier, `manage_content`
and `edit_content` redirect to the dashboard with an `Invalid content
type.` danger flash, while `delete_content` returns a 404 error
response (`"Invalid content type", 404`) with the state untouched. In
all three cases the handler returns normally (no exception).
-/
theorem c9_amended_unknown_type_handling (ct : String) (env : FileStorage → OptEnv)
    (req : Request) (st : WebState) (i : Nat) :
    (ct ∉ manage_models →
      manage_content_post env ct req st =
        .ok (.redirectDashboard, addFlash st "Invalid content type." "danger"))
    ∧ (ct ∉ edit_models →
      edit_content_post env ct i req st =
        .ok (.redirectDashboard, addFlash st "Invalid content type." "danger"))
    ∧ (ct ∉ delete_models →
      delete_content ct i st = .ok (.invalidContentType404, st)) := by
  refine ⟨fun h => ?_, fun h => ?_, fun h => ?_⟩
  · simp [manage_content_post, h]
  · simp [edit_content_post, h]
  · simp [delete_content, h]

/-- Witness for the amended C9 at a concrete input. -/
theorem c9_amended_unknown_type_witness :
    (manage_content_post envSuccess "bogus" reqNoFiles stEmpty =
      .ok (.redirectDashboard, addFlash stEmpty "Invalid content type." "danger"))
    ∧ (edit_content_post envSuccess "bogus" 1 reqNoFiles stEmpty =
      .ok (.redirectDashboard, addFlash stEmpty "Invalid content type." "danger"))
    ∧ (delete_content "bogus" 2 stEmpty = .ok (.invalidContentType404, stEmpty)) :=
  ⟨(c9_amended_unknown_type_handling "bogus" envSuccess reqNoFiles stEmpty 1).1 (by decide),
   (c9_amended_unknown_type_handling "bogus" envSuccess reqNoFiles stEmpty 1).2.1 (by decide),
   (c9_amended_unknown_type_handling "bogus" envSuccess reqNoFiles stEmpty 2).2.2 (by decide)⟩

def stSub : WebState := ⟨{ emptyDB with submissions := [⟨3, "N", "e", "s", "m", 0⟩] }, [], []⟩

/--
Claim C10. The delete registry additionally contains `submissions`
(and deleting a submission redirects to the dashboard, not a listing
view), while the manage and edit registries do not contain
`submissions` and both dispatchers treat it as an invalid content
type (dashboard redirect with the invalid-type danger flash).
-/
theorem c10_submissions_only_in_delete_registry :
    delete_models.contains "submissions" = true
    ∧ manage_models.contains "submissions" = false
    ∧ edit_models.contains "submissions" = false
    ∧ (∀ (st : WebState) (i : Nat) (sub : SubmissionR),
      findId SubmissionR.id st.db.submissions i = some sub →
      delete_content "submissions" i st =
        .ok (.redirectDashboard,
             addFlash { st with db := { st.db with submissions := delId SubmissionR.id st.db.submissions i } }
               "Submission deleted." "info"))
    ∧ (∀ (env : FileStorage → OptEnv) (req : Request) (st : WebState),
      manage_content_post env "submissions" req st =
        .ok (.redirectDashboard, addFlash st "Invalid content type." "danger"))
    ∧ (∀ (env : FileStorage → OptEnv) (i : Nat) (req : Request) (st : WebState),
      edit_content_post env "submissions" i req st =
        .ok (.redirectDashboard, addFlash st "Invalid content type." "danger")) := by
  refine ⟨rfl, rfl, rfl, ?_, ?_, ?_⟩
  · intro st i sub hsub
    simp [delete_content, delete_models, finishDelete, hsub]
    rfl
  · intro env req st
    simp [manage_content_post, manage_models]
  · intro env i req st
    simp [edit_content_post, edit_models]

/-- Witness for C10 at a concrete input. -/
theorem c10_submissions_registry_witness :
    delete_content "submissions" 3 stSub =
      .ok (.redirectDashboard,
           addFlash { stSub with db := { stSub.db with submissions := delId SubmissionR.id stSub.db.submissions 3 } }
             "Submission deleted." "info") :=
  c10_submissions_only_in_delete_registry.2.2.2.1 stSub 3 ⟨3, "N", "e", "s", "m", 0⟩ rfl

end Marogo
